import Mathlib

/-!
Shallow embedding of `memcg_priority.bpf.c` (yunwei37/agentcgroup):
a BPF program that counts page-fault events for a monitored ("HIGH")
memory cgroup in a 1-second sliding window, records the timestamp of a
threshold crossing, and answers two decision callbacks (`below_low_impl`,
`below_min_impl`, `get_high_delay_ms_impl`) from that state.

Machine integers are modelled as `Nat` with explicit `% 2^64` where the C
code can wrap (u64 addition, u64 subtraction `a - b` which in C is
`(a + 2^64 - b) % 2^64`).  The three BPF array maps (`aggregation_map`,
`trigger_ts_map`, `stats`) are zero-initialised by the kernel and lookups
at a valid constant key never fail, so the defensive `if (!ptr) return`
branches of the source are modelled as the lookup always succeeding.
The monotonic clock `bpf_ktime_get_ns()` is passed in as an explicit
`now` argument.
-/

namespace MemcgPriority

/-- 2^64, the modulus of the C `__u64` arithmetic. -/
def U64_MOD : Nat := 18446744073709551616

/-- `#define ONE_SECOND_NS 1000000000ULL` -/
def ONE_SECOND_NS : Nat := 1000000000

/-- C `__u64` wrapping subtraction `a - b` (both operands `< 2^64`). -/
def wsub (a b : Nat) : Nat := (a + U64_MOD - b) % U64_MOD

/-- `struct memcg_priority_config` (the `local_config` global).
`use_below_low` / `use_below_min` are `__u8` flags tested for truthiness,
`over_high_ms` is `__u32`; all kept as `Nat` with `≠ 0` truthiness tests
exactly as the C conditions read. -/
structure memcg_priority_config where
  high_cgroup_id : Nat
  threshold : Nat
  over_high_ms : Nat
  use_below_low : Nat
  use_below_min : Nat
deriving Repr, DecidableEq

/-- `struct AggregationData` — the single entry of `aggregation_map`. -/
structure AggregationData where
  sum : Nat
  window_start_ts : Nat
deriving Repr, DecidableEq

/-- The four entries of the `stats` array map, named after the enum
`STAT_HIGH_DELAY_CALLS = 0, STAT_HIGH_DELAY_ACTIVE = 1,
STAT_BELOW_LOW_CALLS = 2, STAT_BELOW_LOW_ACTIVE = 3`. -/
structure StatsMap where
  high_delay_calls : Nat
  high_delay_active : Nat
  below_low_calls : Nat
  below_low_active : Nat
deriving Repr, DecidableEq

/-- The whole mutable state of the BPF program: the three maps.
`trigger_ts` is the single entry of `trigger_ts_map`. -/
structure BpfState where
  aggregation : AggregationData
  trigger_ts : Nat
  stats : StatsMap
deriving Repr, DecidableEq

/-- The zero-initialised state the kernel gives the freshly loaded maps. -/
def initState : BpfState :=
  { aggregation := { sum := 0, window_start_ts := 0 }
    trigger_ts := 0
    stats := { high_delay_calls := 0, high_delay_active := 0
               below_low_calls := 0, below_low_active := 0 } }

/-- `__sync_fetch_and_add(cnt, 1)` on a u64 counter. -/
def bump (c : Nat) : Nat := (c + 1) % U64_MOD

/-- Lines 84–90 of `handle_count_memcg_events`: accumulate into the
current window when it is younger than one second, otherwise start a
fresh window at `now` holding only this event's value. -/
def accumulate (d : AggregationData) (val now : Nat) : AggregationData :=
  if wsub now d.window_start_ts < ONE_SECOND_NS then
    { d with sum := (d.sum + val) % U64_MOD }
  else
    { sum := val, window_start_ts := now }

/-- `handle_count_memcg_events` (the `tp/memcg/count_memcg_events`
tracepoint handler). `id` is `ctx->id`, `item` is `ctx->item`
(`23` = PGFAULT), `val` is `ctx->val`, `now` is `bpf_ktime_get_ns()`. -/
def handle_count_memcg_events (cfg : memcg_priority_config) (st : BpfState)
    (id item val now : Nat) : BpfState :=
  if id ≠ cfg.high_cgroup_id ∨ item ≠ 23 then st
  else
    let d := accumulate st.aggregation val now
    if d.sum > cfg.threshold then
      { st with aggregation := { sum := 0, window_start_ts := now }
                trigger_ts := now }
    else
      { st with aggregation := d }

/-- `need_protection`: the trigger map entry being `0` means no crossing
was ever recorded; otherwise protection is active while strictly less
than one second has elapsed since the recorded trigger timestamp. -/
def need_protection (st : BpfState) (now : Nat) : Bool :=
  if st.trigger_ts = 0 then false
  else decide (wsub now st.trigger_ts < ONE_SECOND_NS)

/-- `below_low_impl`: the `struct_ops/below_low` callback for the HIGH
cgroup. Returns the boolean answer and the updated state. -/
def below_low_impl (cfg : memcg_priority_config) (st : BpfState)
    (now : Nat) : Bool × BpfState :=
  let st := { st with
    stats := { st.stats with below_low_calls := bump st.stats.below_low_calls } }
  if cfg.use_below_low = 0 then (false, st)
  else if need_protection st now then
    (true, { st with
      stats := { st.stats with below_low_active := bump st.stats.below_low_active } })
  else (false, st)

/-- `below_min_impl`: the `struct_ops/below_min` callback. It only reads
the maps; the state is returned unchanged. -/
def below_min_impl (cfg : memcg_priority_config) (st : BpfState)
    (now : Nat) : Bool × BpfState :=
  if cfg.use_below_min = 0 then (false, st)
  else (need_protection st now, st)

/-- `get_high_delay_ms_impl`: the `struct_ops/get_high_delay_ms` callback
for LOW cgroups. Returns the delay in milliseconds and the updated
state. -/
def get_high_delay_ms_impl (cfg : memcg_priority_config) (st : BpfState)
    (now : Nat) : Nat × BpfState :=
  let st := { st with
    stats := { st.stats with high_delay_calls := bump st.stats.high_delay_calls } }
  if cfg.over_high_ms ≠ 0 ∧ need_protection st now then
    (cfg.over_high_ms, { st with
      stats := { st.stats with high_delay_active := bump st.stats.high_delay_active } })
  else (0, st)

/-! ### Traces of calls into the program

The tracepoint handler and the three callbacks are the only entry points
that touch the maps.  A `Call` records one invocation together with the
value `bpf_ktime_get_ns()` returned during it. -/

/-- One invocation of an entry point of the BPF program. -/
inductive Call where
  | event (id item val now : Nat)
  | belowLow (now : Nat)
  | belowMin (now : Nat)
  | getHighDelay (now : Nat)
deriving Repr, DecidableEq

/-- The state after one call (the call's return value is dropped). -/
def stepCall (cfg : memcg_priority_config) (st : BpfState) : Call → BpfState
  | .event id item val now => handle_count_memcg_events cfg st id item val now
  | .belowLow now => (below_low_impl cfg st now).2
  | .belowMin now => (below_min_impl cfg st now).2
  | .getHighDelay now => (get_high_delay_ms_impl cfg st now).2

/-- The state after a finite sequence of calls. -/
def run (cfg : memcg_priority_config) (st : BpfState) : List Call → BpfState
  | [] => st
  | c :: rest => run cfg (stepCall cfg st c) rest

/-- Number of `get_high_delay_ms_impl` calls in the trace. -/
def countHighDelayCalls : List Call → Nat
  | [] => 0
  | .getHighDelay _ :: rest => countHighDelayCalls rest + 1
  | _ :: rest => countHighDelayCalls rest

/-- Number of `below_low_impl` calls in the trace. -/
def countBelowLowCalls : List Call → Nat
  | [] => 0
  | .belowLow _ :: rest => countBelowLowCalls rest + 1
  | _ :: rest => countBelowLowCalls rest

/-- Whether one call is a `below_low_impl` invocation returning `true`
from the given state. -/
def isBelowLowActive (cfg : memcg_priority_config) (st : BpfState) : Call → Bool
  | .belowLow now => (below_low_impl cfg st now).1
  | _ => false

/-- Whether one call is a `get_high_delay_ms_impl` invocation returning a
nonzero delay from the given state. -/
def isHighDelayActive (cfg : memcg_priority_config) (st : BpfState) : Call → Bool
  | .getHighDelay now => (get_high_delay_ms_impl cfg st now).1 ≠ 0
  | _ => false

/-- Number of `below_low_impl` calls in the trace that return `true`,
threading the state through the trace. -/
def countBelowLowActive (cfg : memcg_priority_config) (st : BpfState) : List Call → Nat
  | [] => 0
  | c :: rest =>
    (if isBelowLowActive cfg st c then 1 else 0) +
      countBelowLowActive cfg (stepCall cfg st c) rest

/-- Number of `get_high_delay_ms_impl` calls in the trace that return a
nonzero delay, threading the state through the trace. -/
def countHighDelayActive (cfg : memcg_priority_config) (st : BpfState) : List Call → Nat
  | [] => 0
  | c :: rest =>
    (if isHighDelayActive cfg st c then 1 else 0) +
      countHighDelayActive cfg (stepCall cfg st c) rest

/-! ### Helper lemmas -/

/-- On u64 values with `b ≤ a`, the wrapping subtraction is the
mathematical one. -/
lemma wsub_eq {a b : Nat} (hba : b ≤ a) (ha : a < U64_MOD) :
    wsub a b = a - b := by
  have h : a + U64_MOD - b = (a - b) + U64_MOD := by omega
  rw [wsub, h, Nat.add_mod_right]
  exact Nat.mod_eq_of_lt (by omega)

lemma need_protection_of_zero {st : BpfState} (h : st.trigger_ts = 0)
    (now : Nat) : need_protection st now = false := by
  simp [need_protection, h]

lemma need_protection_stats (st : BpfState) (s : StatsMap) (now : Nat) :
    need_protection { st with stats := s } now = need_protection st now := rfl

/-- The tracepoint handler never touches the stats map. -/
lemma handle_stats_eq (cfg : memcg_priority_config) (st : BpfState)
    (id item val now : Nat) :
    (handle_count_memcg_events cfg st id item val now).stats = st.stats := by
  unfold handle_count_memcg_events
  dsimp only
  split
  · rfl
  · split <;> rfl

lemma below_low_impl_aggregation (cfg : memcg_priority_config)
    (st : BpfState) (now : Nat) :
    (below_low_impl cfg st now).2.aggregation = st.aggregation := by
  unfold below_low_impl
  dsimp only
  split
  · rfl
  · split <;> rfl

lemma below_low_impl_trigger (cfg : memcg_priority_config)
    (st : BpfState) (now : Nat) :
    (below_low_impl cfg st now).2.trigger_ts = st.trigger_ts := by
  unfold below_low_impl
  dsimp only
  split
  · rfl
  · split <;> rfl

lemma below_low_impl_calls (cfg : memcg_priority_config)
    (st : BpfState) (now : Nat) :
    (below_low_impl cfg st now).2.stats.below_low_calls =
      bump st.stats.below_low_calls := by
  unfold below_low_impl
  dsimp only
  split
  · rfl
  · split <;> rfl

lemma below_low_impl_ret (cfg : memcg_priority_config)
    (st : BpfState) (now : Nat) :
    (below_low_impl cfg st now).1 =
      if cfg.use_below_low = 0 then false else need_protection st now := by
  unfold below_low_impl
  dsimp only
  split
  · simp_all
  · rw [need_protection_stats]
    split <;> simp_all

lemma below_low_impl_active (cfg : memcg_priority_config)
    (st : BpfState) (now : Nat) :
    (below_low_impl cfg st now).2.stats.below_low_active =
      if (below_low_impl cfg st now).1 then bump st.stats.below_low_active
      else st.stats.below_low_active := by
  unfold below_low_impl
  dsimp only
  split
  · rfl
  · split <;> rfl

lemma below_low_impl_hd_calls (cfg : memcg_priority_config)
    (st : BpfState) (now : Nat) :
    (below_low_impl cfg st now).2.stats.high_delay_calls =
      st.stats.high_delay_calls := by
  unfold below_low_impl
  dsimp only
  split
  · rfl
  · split <;> rfl

lemma below_low_impl_hd_active (cfg : memcg_priority_config)
    (st : BpfState) (now : Nat) :
    (below_low_impl cfg st now).2.stats.high_delay_active =
      st.stats.high_delay_active := by
  unfold below_low_impl
  dsimp only
  split
  · rfl
  · split <;> rfl

lemma below_min_impl_state (cfg : memcg_priority_config)
    (st : BpfState) (now : Nat) :
    (below_min_impl cfg st now).2 = st := by
  unfold below_min_impl
  split <;> rfl

lemma below_min_impl_ret (cfg : memcg_priority_config)
    (st : BpfState) (now : Nat) :
    (below_min_impl cfg st now).1 =
      if cfg.use_below_min = 0 then false else need_protection st now := by
  unfold below_min_impl
  split <;> simp_all

lemma get_high_delay_aggregation (cfg : memcg_priority_config)
    (st : BpfState) (now : Nat) :
    (get_high_delay_ms_impl cfg st now).2.aggregation = st.aggregation := by
  unfold get_high_delay_ms_impl
  dsimp only
  split <;> rfl

lemma get_high_delay_trigger (cfg : memcg_priority_config)
    (st : BpfState) (now : Nat) :
    (get_high_delay_ms_impl cfg st now).2.trigger_ts = st.trigger_ts := by
  unfold get_high_delay_ms_impl
  dsimp only
  split <;> rfl

lemma get_high_delay_calls (cfg : memcg_priority_config)
    (st : BpfState) (now : Nat) :
    (get_high_delay_ms_impl cfg st now).2.stats.high_delay_calls =
      bump st.stats.high_delay_calls := by
  unfold get_high_delay_ms_impl
  dsimp only
  split <;> rfl

lemma get_high_delay_ret (cfg : memcg_priority_config)
    (st : BpfState) (now : Nat) :
    (get_high_delay_ms_impl cfg st now).1 =
      if cfg.over_high_ms ≠ 0 ∧ need_protection st now = true then
        cfg.over_high_ms else 0 := by
  unfold get_high_delay_ms_impl
  dsimp only
  rw [need_protection_stats] at *
  split <;> simp_all [need_protection_stats]

lemma get_high_delay_active (cfg : memcg_priority_config)
    (st : BpfState) (now : Nat) :
    (get_high_delay_ms_impl cfg st now).2.stats.high_delay_active =
      if cfg.over_high_ms ≠ 0 ∧ need_protection st now = true then
        bump st.stats.high_delay_active else st.stats.high_delay_active := by
  unfold get_high_delay_ms_impl
  dsimp only
  rw [need_protection_stats]
  split <;> rfl

lemma get_high_delay_bl_calls (cfg : memcg_priority_config)
    (st : BpfState) (now : Nat) :
    (get_high_delay_ms_impl cfg st now).2.stats.below_low_calls =
      st.stats.below_low_calls := by
  unfold get_high_delay_ms_impl
  dsimp only
  split <;> rfl

lemma get_high_delay_bl_active (cfg : memcg_priority_config)
    (st : BpfState) (now : Nat) :
    (get_high_delay_ms_impl cfg st now).2.stats.below_low_active =
      st.stats.below_low_active := by
  unfold get_high_delay_ms_impl
  dsimp only
  split <;> rfl

lemma U64_MOD_pos : 0 < U64_MOD := by decide

lemma bump_lt (c : Nat) : bump c < U64_MOD := Nat.mod_lt _ U64_MOD_pos

lemma run_append (cfg : memcg_priority_config) (st : BpfState)
    (tr₁ tr₂ : List Call) :
    run cfg st (tr₁ ++ tr₂) = run cfg (run cfg st tr₁) tr₂ := by
  induction tr₁ generalizing st with
  | nil => rfl
  | cons c rest ih => exact ih (stepCall cfg st c)

lemma countHighDelayCalls_le (tr : List Call) :
    countHighDelayCalls tr ≤ tr.length := by
  induction tr with
  | nil => simp [countHighDelayCalls]
  | cons c rest ih => cases c <;> simp [countHighDelayCalls] <;> omega

lemma countBelowLowCalls_le (tr : List Call) :
    countBelowLowCalls tr ≤ tr.length := by
  induction tr with
  | nil => simp [countBelowLowCalls]
  | cons c rest ih => cases c <;> simp [countBelowLowCalls] <;> omega

lemma countBelowLowActive_le (cfg : memcg_priority_config) (st : BpfState)
    (tr : List Call) : countBelowLowActive cfg st tr ≤ tr.length := by
  induction tr generalizing st with
  | nil => simp [countBelowLowActive]
  | cons c rest ih =>
    rw [countBelowLowActive]
    have := ih (stepCall cfg st c)
    split <;> (simp; omega)

lemma countHighDelayActive_le (cfg : memcg_priority_config) (st : BpfState)
    (tr : List Call) : countHighDelayActive cfg st tr ≤ tr.length := by
  induction tr generalizing st with
  | nil => simp [countHighDelayActive]
  | cons c rest ih =>
    rw [countHighDelayActive]
    have := ih (stepCall cfg st c)
    split <;> (simp; omega)

lemma countHighDelayCalls_append (tr₁ tr₂ : List Call) :
    countHighDelayCalls (tr₁ ++ tr₂) =
      countHighDelayCalls tr₁ + countHighDelayCalls tr₂ := by
  induction tr₁ with
  | nil => simp [countHighDelayCalls]
  | cons c rest ih => cases c <;> (simp [countHighDelayCalls, ih]; all_goals omega)

lemma countBelowLowCalls_append (tr₁ tr₂ : List Call) :
    countBelowLowCalls (tr₁ ++ tr₂) =
      countBelowLowCalls tr₁ + countBelowLowCalls tr₂ := by
  induction tr₁ with
  | nil => simp [countBelowLowCalls]
  | cons c rest ih => cases c <;> (simp [countBelowLowCalls, ih]; all_goals omega)

lemma countBelowLowActive_append (cfg : memcg_priority_config)
    (st : BpfState) (tr₁ tr₂ : List Call) :
    countBelowLowActive cfg st (tr₁ ++ tr₂) =
      countBelowLowActive cfg st tr₁ +
        countBelowLowActive cfg (run cfg st tr₁) tr₂ := by
  induction tr₁ generalizing st with
  | nil => simp [countBelowLowActive, run]
  | cons c rest ih =>
    rw [List.cons_append, countBelowLowActive, countBelowLowActive,
      ih (stepCall cfg st c)]
    have hrun : run cfg st (c :: rest) = run cfg (stepCall cfg st c) rest := rfl
    rw [hrun]
    omega

lemma countHighDelayActive_append (cfg : memcg_priority_config)
    (st : BpfState) (tr₁ tr₂ : List Call) :
    countHighDelayActive cfg st (tr₁ ++ tr₂) =
      countHighDelayActive cfg st tr₁ +
        countHighDelayActive cfg (run cfg st tr₁) tr₂ := by
  induction tr₁ generalizing st with
  | nil => simp [countHighDelayActive, run]
  | cons c rest ih =>
    rw [List.cons_append, countHighDelayActive, countHighDelayActive,
      ih (stepCall cfg st c)]
    have hrun : run cfg st (c :: rest) = run cfg (stepCall cfg st c) rest := rfl
    rw [hrun]
    omega

/-- Running a trace adds (mod 2^64) to each counter the number of calls
satisfying its triggering condition. -/
lemma run_stats_spec (cfg : memcg_priority_config) (st : BpfState)
    (tr : List Call)
    (h1 : st.stats.high_delay_calls < U64_MOD)
    (h2 : st.stats.high_delay_active < U64_MOD)
    (h3 : st.stats.below_low_calls < U64_MOD)
    (h4 : st.stats.below_low_active < U64_MOD) :
    (run cfg st tr).stats.high_delay_calls =
      (st.stats.high_delay_calls + countHighDelayCalls tr) % U64_MOD ∧
    (run cfg st tr).stats.high_delay_active =
      (st.stats.high_delay_active + countHighDelayActive cfg st tr) % U64_MOD ∧
    (run cfg st tr).stats.below_low_calls =
      (st.stats.below_low_calls + countBelowLowCalls tr) % U64_MOD ∧
    (run cfg st tr).stats.below_low_active =
      (st.stats.below_low_active + countBelowLowActive cfg st tr) % U64_MOD := by
  induction tr generalizing st with
  | nil =>
    refine ⟨?_, ?_, ?_, ?_⟩ <;>
      simp [run, countHighDelayCalls, countBelowLowCalls,
        countHighDelayActive, countBelowLowActive,
        Nat.mod_eq_of_lt h1, Nat.mod_eq_of_lt h2,
        Nat.mod_eq_of_lt h3, Nat.mod_eq_of_lt h4]
  | cons c rest ih =>
    have hrun : run cfg st (c :: rest) = run cfg (stepCall cfg st c) rest := rfl
    cases c with
    | event id item val now =>
      have hs : (stepCall cfg st (Call.event id item val now)).stats = st.stats :=
        handle_stats_eq cfg st id item val now
      obtain ⟨i1, i2, i3, i4⟩ := ih (stepCall cfg st (Call.event id item val now))
        (by rw [hs]; exact h1) (by rw [hs]; exact h2)
        (by rw [hs]; exact h3) (by rw [hs]; exact h4)
      rw [hrun]
      refine ⟨?_, ?_, ?_, ?_⟩
      · rw [i1, hs]
        simp [countHighDelayCalls]
      · rw [i2, hs]
        simp [countHighDelayActive, isHighDelayActive]
      · rw [i3, hs]
        simp [countBelowLowCalls]
      · rw [i4, hs]
        simp [countBelowLowActive, isBelowLowActive]
    | belowMin now =>
      have hs : stepCall cfg st (Call.belowMin now) = st :=
        below_min_impl_state cfg st now
      obtain ⟨i1, i2, i3, i4⟩ := ih st h1 h2 h3 h4
      rw [hrun, hs]
      refine ⟨?_, ?_, ?_, ?_⟩
      · rw [i1]
        simp [countHighDelayCalls]
      · rw [i2]
        simp [countHighDelayActive, isHighDelayActive, hs]
      · rw [i3]
        simp [countBelowLowCalls]
      · rw [i4]
        simp [countBelowLowActive, isBelowLowActive, hs]
    | belowLow now =>
      have e1 : (stepCall cfg st (Call.belowLow now)).stats.high_delay_calls =
          st.stats.high_delay_calls := below_low_impl_hd_calls cfg st now
      have e2 : (stepCall cfg st (Call.belowLow now)).stats.high_delay_active =
          st.stats.high_delay_active := below_low_impl_hd_active cfg st now
      have e3 : (stepCall cfg st (Call.belowLow now)).stats.below_low_calls =
          bump st.stats.below_low_calls := below_low_impl_calls cfg st now
      have e4 : (stepCall cfg st (Call.belowLow now)).stats.below_low_active =
          if (below_low_impl cfg st now).1 then bump st.stats.below_low_active
          else st.stats.below_low_active := below_low_impl_active cfg st now
      obtain ⟨i1, i2, i3, i4⟩ := ih (stepCall cfg st (Call.belowLow now))
        (by rw [e1]; exact h1) (by rw [e2]; exact h2)
        (by rw [e3]; exact bump_lt _)
        (by rw [e4]; split
            · exact bump_lt _
            · exact h4)
      rw [hrun]
      refine ⟨?_, ?_, ?_, ?_⟩
      · rw [i1, e1]
        simp [countHighDelayCalls]
      · rw [i2, e2]
        simp [countHighDelayActive, isHighDelayActive]
      · rw [i3, e3, bump, Nat.mod_add_mod]
        simp only [countBelowLowCalls]
        congr 1
        omega
      · rw [i4, e4]
        by_cases hb : (below_low_impl cfg st now).1 = true
        · rw [if_pos hb, bump, Nat.mod_add_mod]
          simp only [countBelowLowActive, isBelowLowActive, hb, if_true]
          congr 1
          omega
        · rw [if_neg hb]
          simp only [countBelowLowActive, isBelowLowActive]
          rw [if_neg hb]
          simp
    | getHighDelay now =>
      have e1 : (stepCall cfg st (Call.getHighDelay now)).stats.high_delay_calls =
          bump st.stats.high_delay_calls := get_high_delay_calls cfg st now
      have e2 : (stepCall cfg st (Call.getHighDelay now)).stats.high_delay_active =
          if cfg.over_high_ms ≠ 0 ∧ need_protection st now = true then
            bump st.stats.high_delay_active
          else st.stats.high_delay_active := get_high_delay_active cfg st now
      have e3 : (stepCall cfg st (Call.getHighDelay now)).stats.below_low_calls =
          st.stats.below_low_calls := get_high_delay_bl_calls cfg st now
      have e4 : (stepCall cfg st (Call.getHighDelay now)).stats.below_low_active =
          st.stats.below_low_active := get_high_delay_bl_active cfg st now
      obtain ⟨i1, i2, i3, i4⟩ := ih (stepCall cfg st (Call.getHighDelay now))
        (by rw [e1]; exact bump_lt _)
        (by rw [e2]; split
            · exact bump_lt _
            · exact h2)
        (by rw [e3]; exact h3) (by rw [e4]; exact h4)
      rw [hrun]
      refine ⟨?_, ?_, ?_, ?_⟩
      · rw [i1, e1, bump, Nat.mod_add_mod]
        simp only [countHighDelayCalls]
        congr 1
        omega
      · rw [i2, e2]
        by_cases hc : cfg.over_high_ms ≠ 0 ∧ need_protection st now = true
        · rw [if_pos hc, bump, Nat.mod_add_mod]
          have hret : isHighDelayActive cfg st (Call.getHighDelay now) = true := by
            simp [isHighDelayActive, get_high_delay_ret, hc, hc.1]
          simp only [countHighDelayActive, hret, if_true]
          congr 1
          omega
        · rw [if_neg hc]
          have hret : isHighDelayActive cfg st (Call.getHighDelay now) = false := by
            simp [isHighDelayActive, get_high_delay_ret, hc]
          simp only [countHighDelayActive, hret]
          simp
      · rw [i3, e3]
        simp [countBelowLowCalls]
      · rw [i4, e4]
        simp [countBelowLowActive, isBelowLowActive]

lemma handle_sum_le (cfg : memcg_priority_config) (st : BpfState)
    (id item val now : Nat) (h : st.aggregation.sum ≤ cfg.threshold) :
    (handle_count_memcg_events cfg st id item val now).aggregation.sum ≤
      cfg.threshold := by
  unfold handle_count_memcg_events
  dsimp only
  split
  · exact h
  · split
    · exact Nat.zero_le _
    · rename_i hle
      exact Nat.le_of_not_lt hle

lemma stepCall_sum_le (cfg : memcg_priority_config) (st : BpfState)
    (c : Call) (h : st.aggregation.sum ≤ cfg.threshold) :
    (stepCall cfg st c).aggregation.sum ≤ cfg.threshold := by
  cases c with
  | event id item val now => exact handle_sum_le cfg st id item val now h
  | belowLow now =>
    show (below_low_impl cfg st now).2.aggregation.sum ≤ cfg.threshold
    rw [below_low_impl_aggregation]
    exact h
  | belowMin now =>
    show (below_min_impl cfg st now).2.aggregation.sum ≤ cfg.threshold
    rw [below_min_impl_state]
    exact h
  | getHighDelay now =>
    show (get_high_delay_ms_impl cfg st now).2.aggregation.sum ≤ cfg.threshold
    rw [get_high_delay_aggregation]
    exact h

lemma run_sum_le (cfg : memcg_priority_config) (st : BpfState)
    (tr : List Call) (h : st.aggregation.sum ≤ cfg.threshold) :
    (run cfg st tr).aggregation.sum ≤ cfg.threshold := by
  induction tr generalizing st with
  | nil => exact h
  | cons c rest ih => exact ih (stepCall cfg st c) (stepCall_sum_le cfg st c h)

/-! ### Claims -/

/-- C1, as stated, is false at a crossing whose clock reading is 0: the
event is relevant and its accumulated window sum (1) strictly exceeds
the threshold (0), so the handler records trigger timestamp 0 and resets
the window — but `need_protection` treats a stored 0 as "never crossed",
so protection is NOT active 0.5 s after the crossing, where the claim
says it must be active for the next second. -/
theorem c1_crossing_at_time_zero_counterexample :
    (accumulate initState.aggregation 1 0).sum >
      (⟨1, 0, 0, 1, 0⟩ : memcg_priority_config).threshold ∧
    (handle_count_memcg_events ⟨1, 0, 0, 1, 0⟩ initState 1 23 1 0).trigger_ts
      = 0 ∧
    (handle_count_memcg_events ⟨1, 0, 0, 1, 0⟩ initState 1 23 1 0).aggregation
      = { sum := 0, window_start_ts := 0 } ∧
    need_protection
      (handle_count_memcg_events ⟨1, 0, 0, 1, 0⟩ initState 1 23 1 0)
      500000000 = false := by
  refine ⟨by decide, by decide, by decide, by decide⟩

/-- C1 (amended): for a relevant event whose accumulated window sum
strictly exceeds `threshold`, the handler sets the trigger timestamp to
`now` and resets the window to sum 0 starting at `now`; provided the
clock reading `now` is nonzero (a crossing at clock reading 0 is
conflated with "never crossed", see C10), protection is active at every
instant strictly less than one second after the crossing and inactive
once strictly more than one second has elapsed. -/
theorem c1_threshold_crossing_activates_protection
    (cfg : memcg_priority_config) (st : BpfState) (id item val now : Nat)
    (hid : id = cfg.high_cgroup_id) (hitem : item = 23)
    (hcross : (accumulate st.aggregation val now).sum > cfg.threshold)
    (hnz : now ≠ 0) ( _hnow : now < U64_MOD) :
    (handle_count_memcg_events cfg st id item val now).trigger_ts = now ∧
    (handle_count_memcg_events cfg st id item val now).aggregation =
      { sum := 0, window_start_ts := now } ∧
    (∀ t, now ≤ t → t < U64_MOD → t - now < ONE_SECOND_NS →
      need_protection (handle_count_memcg_events cfg st id item val now) t
        = true) ∧
    (∀ t, t < U64_MOD → ONE_SECOND_NS < t - now →
      need_protection (handle_count_memcg_events cfg st id item val now) t
        = false) := by
  have hfilter : ¬(id ≠ cfg.high_cgroup_id ∨ item ≠ 23) := by
    push_neg
    exact ⟨hid, hitem⟩
  have hstep : handle_count_memcg_events cfg st id item val now =
      { st with aggregation := { sum := 0, window_start_ts := now },
                trigger_ts := now } := by
    unfold handle_count_memcg_events
    rw [if_neg hfilter]
    dsimp only
    rw [if_pos hcross]
  rw [hstep]
  refine ⟨rfl, rfl, ?_, ?_⟩
  · intro t hle hlt hwin
    simp [need_protection, hnz, wsub_eq hle hlt, hwin]
  · intro t hlt hgt
    have hle : now ≤ t := by omega
    simp [need_protection, hnz, wsub_eq hle hlt]
    omega

/-- Witness for C1: crossing threshold 0 at clock reading 5 makes
protection active 0.9 s later and inactive about 2 s later. -/
theorem c1_threshold_crossing_activates_protection_witness :
    need_protection
      (handle_count_memcg_events ⟨1, 0, 0, 1, 0⟩ initState 1 23 1 5)
      900000000 = true ∧
    need_protection
      (handle_count_memcg_events ⟨1, 0, 0, 1, 0⟩ initState 1 23 1 5)
      2000000006 = false :=
  ⟨(c1_threshold_crossing_activates_protection ⟨1, 0, 0, 1, 0⟩ initState
      1 23 1 5 rfl rfl (by decide) (by decide) (by decide)).2.2.1
      900000000 (by decide) (by decide) (by decide),
   (c1_threshold_crossing_activates_protection ⟨1, 0, 0, 1, 0⟩ initState
      1 23 1 5 rfl rfl (by decide) (by decide) (by decide)).2.2.2
      2000000006 (by decide) (by decide)⟩

/-- C2: on a relevant event the handler first accumulates: if strictly
less than one second has passed since the window start it adds the value
to the running sum (mod 2^64) keeping the window start, otherwise it
starts a fresh window at `now` whose sum is this event's value alone;
the handler's final state is exactly that accumulated window subjected
to the threshold check described in C1. -/
theorem c2_window_accumulation
    (cfg : memcg_priority_config) (st : BpfState) (id item val now : Nat)
    (hid : id = cfg.high_cgroup_id) (hitem : item = 23)
    (hws : st.aggregation.window_start_ts ≤ now) (hnow : now < U64_MOD) :
    (now - st.aggregation.window_start_ts < ONE_SECOND_NS →
      accumulate st.aggregation val now =
        { sum := (st.aggregation.sum + val) % U64_MOD,
          window_start_ts := st.aggregation.window_start_ts }) ∧
    (¬ now - st.aggregation.window_start_ts < ONE_SECOND_NS →
      accumulate st.aggregation val now =
        { sum := val, window_start_ts := now }) ∧
    handle_count_memcg_events cfg st id item val now =
      (if (accumulate st.aggregation val now).sum > cfg.threshold then
        { st with aggregation := { sum := 0, window_start_ts := now },
                  trigger_ts := now }
      else { st with aggregation := accumulate st.aggregation val now }) := by
  have hsub := wsub_eq hws hnow
  refine ⟨?_, ?_, ?_⟩
  · intro h
    rw [accumulate, hsub, if_pos h]
  · intro h
    rw [accumulate, hsub, if_neg h]
  · have hfilter : ¬(id ≠ cfg.high_cgroup_id ∨ item ≠ 23) := by
      push_neg
      exact ⟨hid, hitem⟩
    unfold handle_count_memcg_events
    rw [if_neg hfilter]

/-- Witness for C2: a young window accumulates 4 + 3 keeping start 100;
an aged window restarts at the event time holding only the value 3. -/
theorem c2_window_accumulation_witness :
    accumulate { sum := 4, window_start_ts := 100 } 3 200 =
      { sum := (4 + 3) % U64_MOD, window_start_ts := 100 } ∧
    accumulate { sum := 4, window_start_ts := 100 } 3 2000000000 =
      { sum := 3, window_start_ts := 2000000000 } :=
  ⟨(c2_window_accumulation ⟨1, 10, 0, 0, 0⟩
      { initState with aggregation := { sum := 4, window_start_ts := 100 } }
      1 23 3 200 rfl rfl (by decide) (by decide)).1 (by decide),
   (c2_window_accumulation ⟨1, 10, 0, 0, 0⟩
      { initState with aggregation := { sum := 4, window_start_ts := 100 } }
      1 23 3 2000000000 rfl rfl (by decide) (by decide)).2.1 (by decide)⟩

/-- C3: `need_protection` returns false whenever no crossing has been
recorded (the stored trigger timestamp is still 0), and otherwise
returns true exactly when the current time minus the recorded trigger
timestamp is strictly less than one second.  The embedding is a pure
function of the state — matching the source, which only performs map
lookups and reads the clock and so mutates nothing. -/
theorem c3_need_protection_spec (st : BpfState) (now : Nat) :
    (st.trigger_ts = 0 → need_protection st now = false) ∧
    (st.trigger_ts ≠ 0 → st.trigger_ts ≤ now → now < U64_MOD →
      (need_protection st now = true ↔
        now - st.trigger_ts < ONE_SECOND_NS)) := by
  constructor
  · intro h
    exact need_protection_of_zero h now
  · intro h1 h2 h3
    rw [need_protection, if_neg h1, wsub_eq h2 h3]
    simp

/-- Witness for C3: never-crossed state answers false; trigger 7 is
active at time 1000000006 since 999999999 ns have elapsed. -/
theorem c3_need_protection_spec_witness :
    need_protection initState 5 = false ∧
    (need_protection { initState with trigger_ts := 7 } 1000000006 = true ↔
      1000000006 - 7 < ONE_SECOND_NS) :=
  ⟨(c3_need_protection_spec initState 5).1 rfl,
   (c3_need_protection_spec { initState with trigger_ts := 7 }
      1000000006).2 (by decide) (by decide) (by decide)⟩

/-- C4: `get_high_delay_ms_impl` bumps the throttle-query counter
(`STAT_HIGH_DELAY_CALLS`) unconditionally; when `over_high_ms > 0` and
protection is active it bumps the throttle-active counter and returns
exactly `over_high_ms`; in every other case it returns 0 and leaves the
throttle-active counter untouched. -/
theorem c4_get_high_delay_ms_spec (cfg : memcg_priority_config)
    (st : BpfState) (now : Nat) :
    (get_high_delay_ms_impl cfg st now).2.stats.high_delay_calls =
      bump st.stats.high_delay_calls ∧
    (cfg.over_high_ms > 0 ∧ need_protection st now = true →
      (get_high_delay_ms_impl cfg st now).1 = cfg.over_high_ms ∧
      (get_high_delay_ms_impl cfg st now).2.stats.high_delay_active =
        bump st.stats.high_delay_active) ∧
    (¬ (cfg.over_high_ms > 0 ∧ need_protection st now = true) →
      (get_high_delay_ms_impl cfg st now).1 = 0 ∧
      (get_high_delay_ms_impl cfg st now).2.stats.high_delay_active =
        st.stats.high_delay_active) := by
  have hiff : (cfg.over_high_ms > 0 ∧ need_protection st now = true) ↔
      (cfg.over_high_ms ≠ 0 ∧ need_protection st now = true) := by
    constructor <;> (intro h; exact ⟨by omega, h.2⟩)
  refine ⟨get_high_delay_calls cfg st now, ?_, ?_⟩
  · intro h
    have h' := hiff.mp h
    constructor
    · rw [get_high_delay_ret, if_pos h']
    · rw [get_high_delay_active, if_pos h']
  · intro h
    have h' : ¬ (cfg.over_high_ms ≠ 0 ∧ need_protection st now = true) :=
      fun hc => h (hiff.mpr hc)
    constructor
    · rw [get_high_delay_ret, if_neg h']
    · rw [get_high_delay_active, if_neg h']

/-- Witness for C4: with delay 5 and protection active the call returns
5 and bumps both counters; with delay 0 and protection still active it
returns 0. -/
theorem c4_get_high_delay_ms_spec_witness :
    (get_high_delay_ms_impl ⟨1, 10, 5, 0, 0⟩
      { initState with trigger_ts := 2 } 3).1 = 5 ∧
    (get_high_delay_ms_impl ⟨1, 10, 5, 0, 0⟩
      { initState with trigger_ts := 2 } 3).2.stats.high_delay_active =
      bump 0 ∧
    (get_high_delay_ms_impl ⟨1, 10, 0, 0, 0⟩
      { initState with trigger_ts := 2 } 3).1 = 0 ∧
    (get_high_delay_ms_impl ⟨1, 10, 0, 0, 0⟩
      { initState with trigger_ts := 2 } 3).2.stats.high_delay_calls =
      bump 0 :=
  ⟨((c4_get_high_delay_ms_spec ⟨1, 10, 5, 0, 0⟩
      { initState with trigger_ts := 2 } 3).2.1 ⟨by decide, by decide⟩).1,
   ((c4_get_high_delay_ms_spec ⟨1, 10, 5, 0, 0⟩
      { initState with trigger_ts := 2 } 3).2.1 ⟨by decide, by decide⟩).2,
   ((c4_get_high_delay_ms_spec ⟨1, 10, 0, 0, 0⟩
      { initState with trigger_ts := 2 } 3).2.2 (by decide)).1,
   (c4_get_high_delay_ms_spec ⟨1, 10, 0, 0, 0⟩
      { initState with trigger_ts := 2 } 3).1⟩

/-- C5: `below_low_impl` bumps the protect-query counter
(`STAT_BELOW_LOW_CALLS`) unconditionally; it returns false whenever the
`use_below_low` flag is unset regardless of protection state, and
otherwise returns `need_protection`; the protect-active counter is
bumped exactly when the returned value is true. -/
theorem c5_below_low_spec (cfg : memcg_priority_config) (st : BpfState)
    (now : Nat) :
    (below_low_impl cfg st now).2.stats.below_low_calls =
      bump st.stats.below_low_calls ∧
    (cfg.use_below_low = 0 → (below_low_impl cfg st now).1 = false) ∧
    (cfg.use_below_low ≠ 0 →
      (below_low_impl cfg st now).1 = need_protection st now) ∧
    (below_low_impl cfg st now).2.stats.below_low_active =
      (if (below_low_impl cfg st now).1 then bump st.stats.below_low_active
       else st.stats.below_low_active) := by
  refine ⟨below_low_impl_calls cfg st now, ?_, ?_,
    below_low_impl_active cfg st now⟩
  · intro h
    rw [below_low_impl_ret, if_pos h]
  · intro h
    rw [below_low_impl_ret, if_neg h]

/-- Witness for C5: with the boolean mode disabled the call returns
false while protection is active, yet still bumps the query counter;
with the mode enabled it reports the protection state. -/
theorem c5_below_low_spec_witness :
    (below_low_impl ⟨1, 10, 5, 0, 0⟩
      { initState with trigger_ts := 2 } 3).1 = false ∧
    (below_low_impl ⟨1, 10, 5, 0, 0⟩
      { initState with trigger_ts := 2 } 3).2.stats.below_low_calls =
      bump 0 ∧
    (below_low_impl ⟨1, 10, 5, 1, 0⟩
      { initState with trigger_ts := 2 } 3).1 =
      need_protection { initState with trigger_ts := 2 } 3 :=
  ⟨(c5_below_low_spec ⟨1, 10, 5, 0, 0⟩
      { initState with trigger_ts := 2 } 3).2.1 rfl,
   (c5_below_low_spec ⟨1, 10, 5, 0, 0⟩
      { initState with trigger_ts := 2 } 3).1,
   (c5_below_low_spec ⟨1, 10, 5, 1, 0⟩
      { initState with trigger_ts := 2 } 3).2.2.1 (by decide)⟩

/-- C6: `below_min_impl` returns false whenever the `use_below_min` flag
is unset and otherwise returns `need_protection`; it returns the state
unchanged, so in particular all four stats counters are untouched on
this path (the counter asymmetry with `below_low_impl` is in the
source). -/
theorem c6_below_min_spec (cfg : memcg_priority_config) (st : BpfState)
    (now : Nat) :
    (cfg.use_below_min = 0 → (below_min_impl cfg st now).1 = false) ∧
    (cfg.use_below_min ≠ 0 →
      (below_min_impl cfg st now).1 = need_protection st now) ∧
    (below_min_impl cfg st now).2.stats = st.stats ∧
    (below_min_impl cfg st now).2 = st := by
  refine ⟨?_, ?_, ?_, below_min_impl_state cfg st now⟩
  · intro h
    rw [below_min_impl_ret, if_pos h]
  · intro h
    rw [below_min_impl_ret, if_neg h]
  · rw [below_min_impl_state]

/-- Witness for C6: disabled strict mode answers false even while
protection is active; enabled strict mode reports the protection state;
the state (hence every counter) is unchanged. -/
theorem c6_below_min_spec_witness :
    (below_min_impl ⟨1, 10, 5, 0, 0⟩
      { initState with trigger_ts := 2 } 3).1 = false ∧
    (below_min_impl ⟨1, 10, 5, 0, 1⟩
      { initState with trigger_ts := 2 } 3).1 =
      need_protection { initState with trigger_ts := 2 } 3 ∧
    (below_min_impl ⟨1, 10, 5, 0, 1⟩
      { initState with trigger_ts := 2 } 3).2 =
      { initState with trigger_ts := 2 } :=
  ⟨(c6_below_min_spec ⟨1, 10, 5, 0, 0⟩
      { initState with trigger_ts := 2 } 3).1 rfl,
   (c6_below_min_spec ⟨1, 10, 5, 0, 1⟩
      { initState with trigger_ts := 2 } 3).2.1 (by decide),
   (c6_below_min_spec ⟨1, 10, 5, 0, 1⟩
      { initState with trigger_ts := 2 } 3).2.2.2⟩

/-- C7: an event whose cgroup id differs from the monitored one, or
whose item is not PGFAULT (23), leaves the whole state — aggregation
window, trigger timestamp and all stats counters — unchanged. -/
theorem c7_irrelevant_event_noop (cfg : memcg_priority_config)
    (st : BpfState) (id item val now : Nat)
    (h : id ≠ cfg.high_cgroup_id ∨ item ≠ 23) :
    handle_count_memcg_events cfg st id item val now = st := by
  unfold handle_count_memcg_events
  rw [if_pos h]

/-- Witness for C7: a wrong-group event and a wrong-kind event are both
no-ops. -/
theorem c7_irrelevant_event_noop_witness :
    handle_count_memcg_events ⟨1, 10, 5, 1, 1⟩ initState 2 23 100 50 =
      initState ∧
    handle_count_memcg_events ⟨1, 10, 5, 1, 1⟩ initState 1 22 100 50 =
      initState :=
  ⟨c7_irrelevant_event_noop ⟨1, 10, 5, 1, 1⟩ initState 2 23 100 50
      (Or.inl (by decide)),
   c7_irrelevant_event_noop ⟨1, 10, 5, 1, 1⟩ initState 1 22 100 50
      (Or.inr (by decide))⟩

/-- C9: starting from the zero-valued initial state, after every
completed sequence of calls the aggregation window sum is at most the
threshold — any crossing resets the sum to 0 within the same handler
call, so a sum strictly above the threshold is never observable between
calls. -/
theorem c9_window_sum_invariant (cfg : memcg_priority_config)
    (tr : List Call) :
    (run cfg initState tr).aggregation.sum ≤ cfg.threshold :=
  run_sum_le cfg initState tr (Nat.zero_le _)

/-- C10: the "no crossing recorded" state is encoded as trigger
timestamp 0 and `need_protection` answers false for it; hence a
threshold crossing handled while the monotonic clock reads exactly 0
stores trigger timestamp 0 and never activates protection — it is
indistinguishable from never having crossed. -/
theorem c10_zero_trigger_encoding (cfg : memcg_priority_config)
    (st : BpfState) (id item val : Nat) :
    (∀ now, st.trigger_ts = 0 → need_protection st now = false) ∧
    (id = cfg.high_cgroup_id → item = 23 →
      (accumulate st.aggregation val 0).sum > cfg.threshold →
      (handle_count_memcg_events cfg st id item val 0).trigger_ts = 0 ∧
      ∀ t, need_protection (handle_count_memcg_events cfg st id item val 0)
        t = false) := by
  constructor
  · intro now h
    exact need_protection_of_zero h now
  · intro hid hitem hcross
    have hfilter : ¬(id ≠ cfg.high_cgroup_id ∨ item ≠ 23) := by
      push_neg
      exact ⟨hid, hitem⟩
    have hstep : handle_count_memcg_events cfg st id item val 0 =
        { st with aggregation := { sum := 0, window_start_ts := 0 },
                  trigger_ts := 0 } := by
      unfold handle_count_memcg_events
      rw [if_neg hfilter]
      dsimp only
      rw [if_pos hcross]
    rw [hstep]
    exact ⟨rfl, fun t => need_protection_of_zero rfl t⟩

/-- Witness for C10: the initial state never reports protection, and a
crossing at clock reading 0 stores trigger 0 and reports no protection
half a second later. -/
theorem c10_zero_trigger_encoding_witness :
    need_protection initState 12345 = false ∧
    (handle_count_memcg_events ⟨1, 0, 0, 1, 0⟩ initState 1 23 1 0).trigger_ts
      = 0 ∧
    need_protection
      (handle_count_memcg_events ⟨1, 0, 0, 1, 0⟩ initState 1 23 1 0)
      500000000 = false :=
  ⟨(c10_zero_trigger_encoding ⟨1, 0, 0, 1, 0⟩ initState 1 23 1).1
      12345 rfl,
   ((c10_zero_trigger_encoding ⟨1, 0, 0, 1, 0⟩ initState 1 23 1).2
      rfl rfl (by decide)).1,
   ((c10_zero_trigger_encoding ⟨1, 0, 0, 1, 0⟩ initState 1 23 1).2
      rfl rfl (by decide)).2 500000000⟩

/-- C8: for any finite sequence of calls (shorter than 2^64, so the u64
counters cannot wrap) starting from the zero-valued initial state, each
of the four stats counters equals exactly the number of calls that
satisfied its triggering condition — throttle-queries counts
`get_high_delay_ms_impl` calls, protect-queries counts `below_low_impl`
calls, throttle-active counts `get_high_delay_ms_impl` calls that
returned a nonzero delay, protect-active counts `below_low_impl` calls
that returned true — and along every prefix of the sequence each counter
is monotonically non-decreasing. -/
theorem c8_counters_exact (cfg : memcg_priority_config) (tr : List Call)
    (h : tr.length < U64_MOD) :
    ((run cfg initState tr).stats.high_delay_calls =
        countHighDelayCalls tr ∧
      (run cfg initState tr).stats.high_delay_active =
        countHighDelayActive cfg initState tr ∧
      (run cfg initState tr).stats.below_low_calls =
        countBelowLowCalls tr ∧
      (run cfg initState tr).stats.below_low_active =
        countBelowLowActive cfg initState tr) ∧
    ∀ tr₁ tr₂, tr = tr₁ ++ tr₂ →
      (run cfg initState tr₁).stats.high_delay_calls ≤
        (run cfg initState tr).stats.high_delay_calls ∧
      (run cfg initState tr₁).stats.high_delay_active ≤
        (run cfg initState tr).stats.high_delay_active ∧
      (run cfg initState tr₁).stats.below_low_calls ≤
        (run cfg initState tr).stats.below_low_calls ∧
      (run cfg initState tr₁).stats.below_low_active ≤
        (run cfg initState tr).stats.below_low_active := by
  have key : ∀ s : List Call, s.length < U64_MOD →
      (run cfg initState s).stats.high_delay_calls =
        countHighDelayCalls s ∧
      (run cfg initState s).stats.high_delay_active =
        countHighDelayActive cfg initState s ∧
      (run cfg initState s).stats.below_low_calls =
        countBelowLowCalls s ∧
      (run cfg initState s).stats.below_low_active =
        countBelowLowActive cfg initState s := by
    intro s hs
    obtain ⟨k1, k2, k3, k4⟩ := run_stats_spec cfg initState s
      U64_MOD_pos U64_MOD_pos U64_MOD_pos U64_MOD_pos
    refine ⟨?_, ?_, ?_, ?_⟩
    · rw [k1, show initState.stats.high_delay_calls = 0 from rfl,
        Nat.zero_add,
        Nat.mod_eq_of_lt (lt_of_le_of_lt (countHighDelayCalls_le s) hs)]
    · rw [k2, show initState.stats.high_delay_active = 0 from rfl,
        Nat.zero_add,
        Nat.mod_eq_of_lt
          (lt_of_le_of_lt (countHighDelayActive_le cfg initState s) hs)]
    · rw [k3, show initState.stats.below_low_calls = 0 from rfl,
        Nat.zero_add,
        Nat.mod_eq_of_lt (lt_of_le_of_lt (countBelowLowCalls_le s) hs)]
    · rw [k4, show initState.stats.below_low_active = 0 from rfl,
        Nat.zero_add,
        Nat.mod_eq_of_lt
          (lt_of_le_of_lt (countBelowLowActive_le cfg initState s) hs)]
  refine ⟨key tr h, ?_⟩
  intro tr₁ tr₂ heq
  subst heq
  have h1 : tr₁.length < U64_MOD := by
    rw [List.length_append] at h
    omega
  obtain ⟨a1, a2, a3, a4⟩ := key tr₁ h1
  obtain ⟨b1, b2, b3, b4⟩ := key (tr₁ ++ tr₂) h
  rw [a1, a2, a3, a4, b1, b2, b3, b4, countHighDelayCalls_append,
    countBelowLowCalls_append, countHighDelayActive_append,
    countBelowLowActive_append]
  refine ⟨?_, ?_, ?_, ?_⟩ <;> omega

/-- Witness for C8: a concrete trace — a crossing event, an active
protect query, an active throttle query, and a late inactive protect
query — whose counters match the counts, with one prefix comparison. -/
theorem c8_counters_exact_witness :
    (run ⟨1, 10, 5, 1, 0⟩ initState
        [Call.event 1 23 100 3, Call.belowLow 4, Call.getHighDelay 5,
         Call.belowLow 2000000000]).stats.below_low_active =
      countBelowLowActive ⟨1, 10, 5, 1, 0⟩ initState
        [Call.event 1 23 100 3, Call.belowLow 4, Call.getHighDelay 5,
         Call.belowLow 2000000000] ∧
    (run ⟨1, 10, 5, 1, 0⟩ initState
        [Call.event 1 23 100 3]).stats.below_low_calls ≤
      (run ⟨1, 10, 5, 1, 0⟩ initState
        [Call.event 1 23 100 3, Call.belowLow 4, Call.getHighDelay 5,
         Call.belowLow 2000000000]).stats.below_low_calls :=
  ⟨(c8_counters_exact ⟨1, 10, 5, 1, 0⟩
      [Call.event 1 23 100 3, Call.belowLow 4, Call.getHighDelay 5,
       Call.belowLow 2000000000] (by decide)).1.2.2.2,
   ((c8_counters_exact ⟨1, 10, 5, 1, 0⟩
      [Call.event 1 23 100 3, Call.belowLow 4, Call.getHighDelay 5,
       Call.belowLow 2000000000] (by decide)).2
      [Call.event 1 23 100 3]
      [Call.belowLow 4, Call.getHighDelay 5, Call.belowLow 2000000000]
      rfl).2.2.1⟩

end MemcgPriority
